import Mathlib

/-!
Shallow embedding of the Lavapy client core (src/lavapy/player.py and
src/lavapy/node.py) for checking the natural-language specification.

Times and positions are modelled as rationals (Python floats / datetimes),
guild/channel/session identifiers as strings or naturals, and the outbound
wire frames as an inductive `Frame`. Python exceptions become the `PyError`
inductive; a method that can raise is modelled as returning `Except` or an
`Option PyError` component alongside the state it had already mutated and
the frames it had already sent before the raise.
-/

namespace Lavapy

/-- A resolved track: the opaque base64 id plus metadata. Only the fields the
claims touch are carried. -/
structure Track where
  id : String
  title : String
  length : ℚ
deriving DecidableEq, Repr

/-- A Lavapy filter: a name (the dict key) and an opaque payload. -/
structure LavapyFilter where
  name : String
  payload : String
deriving DecidableEq, Repr

/-- Python exceptions raised by the modelled code paths. -/
inductive PyError where
  | typeError
  | indexError
  | attributeError (attr : String)
  | invalidIdentifier (msg : String)
  | filterAlreadyExists (msg : String)
  | filterNotApplied (msg : String)
  | lavalinkException (msg : String)
  | loadTrackError (msg : String)
deriving DecidableEq, Repr

/-- Outbound frames sent over the node websocket (`Node.send` payloads). -/
inductive Frame where
  | stop (guildId : String)
  | pause (guildId : String) (pause : Bool)
  | seek (guildId : String) (position : ℚ)
  | voiceUpdate (guildId : String) (sessionId : String) (event : String)
  | filters (guildId : String) (volume : ℚ) (filterSet : List (String × String))
deriving DecidableEq, Repr

/-- The value stored in `Player._paused`. `Player._togglePause` rebinds its
local `pause` parameter to the payload dict before executing
`self._paused = pause`, so the attribute can hold either a bool (its initial
value) or the pause-payload dict. -/
inductive PausedVal where
  | ofBool (b : Bool)
  | pausePayload (guildId : String) (pause : Bool)
deriving DecidableEq, Repr

/-- Python truthiness of a `PausedVal`: a bool is itself; the pause payload is
a non-empty dict, hence truthy. -/
def PausedVal.truthy : PausedVal → Bool
  | .ofBool b => b
  | .pausePayload _ _ => true

/-- The mutable state of a `Player` (player.py `__init__`). The voice-state
dict `_voiceState` only ever holds the keys `sessionId` and `event`, so it is
modelled as the two optional slots `voiceSessionId` and `voiceEvent`. -/
structure Player where
  guildId : String
  channel : Nat
  track : Option Track
  volume : ℤ
  filters : List (String × String)
  voiceSessionId : Option String
  voiceEvent : Option String
  connected : Bool
  paused : PausedVal
  lastUpdateTime : Option ℚ
  lastPosition : Option ℚ
deriving DecidableEq, Repr

/-- `Player.isConnected`. -/
def Player.isConnected (p : Player) : Bool := p.connected

/-- `Player.isPlaying`: connected and a track is set. -/
def Player.isPlaying (p : Player) : Bool := p.isConnected && p.track.isSome

/-- `Player.isPaused`: returns `self._paused` as stored. -/
def Player.isPaused (p : Player) : PausedVal := p.paused

/-- `Player.position`: 0 when nothing is playing; in the paused branch
`min(lastPosition, track.length)`, where a snapshot position still at `None`
makes the `min` comparison raise `TypeError`. In the unpaused branch the
source evaluates `datetime.datetime.now(timezone.utc)` first, and because
player.py rebinds the module name `datetime` to the class (line 28's
`from datetime import datetime`), that attribute access always raises
`AttributeError` before any snapshot field or the clock is read, so the
branch never returns a number. -/
def Player.position (p : Player) : Except PyError ℚ :=
  if p.isPlaying = false then .ok 0
  else
    match p.track with
    | none => .error (.attributeError "length")
    | some t =>
      if p.paused.truthy then
        match p.lastPosition with
        | none => .error .typeError
        | some lp => .ok (min lp t.length)
      else .error (.attributeError "datetime")

/-- The `state` object of a `playerUpdate` push message: a server timestamp in
milliseconds and an optional position in milliseconds. -/
structure RawState where
  time : ℚ
  position : Option ℚ
deriving DecidableEq, Repr

/-- `Player._updateState`: store the snapshot, converting milliseconds to
seconds; a missing position defaults to 0. -/
def Player.updateState (p : Player) (s : RawState) : Player :=
  { p with
    lastUpdateTime := some (s.time / 1000)
    lastPosition := some (s.position.getD 0 / 1000) }

/-- `Player._sendVoiceUpdate`: emits the voiceUpdate frame only when both
keys `sessionId` and `event` are present in the voice-state buffer. -/
def Player.sendVoiceUpdate (p : Player) : List Frame :=
  match p.voiceSessionId, p.voiceEvent with
  | some sid, some ev => [Frame.voiceUpdate p.guildId sid ev]
  | _, _ => []

/-- `Player.on_voice_server_update`: store the raw event data in the `event`
slot, then attempt a voice update. -/
def Player.on_voice_server_update (p : Player) (data : String) :
    Player × List Frame :=
  let p' := { p with voiceEvent := some data }
  (p', p'.sendVoiceUpdate)

/-- `Player.on_voice_state_update`: store the session id; a null
`channel_id` clears the whole buffer and returns; otherwise the channel
reference may move and a voice update is attempted. -/
def Player.on_voice_state_update (p : Player) (sessionId : String)
    (channelId : Option Nat) : Player × List Frame :=
  let p' := { p with voiceSessionId := some sessionId }
  match channelId with
  | none => ({ p' with voiceSessionId := none, voiceEvent := none }, [])
  | some cid =>
    let p'' := { p' with channel := cid }
    (p'', p''.sendVoiceUpdate)

/-- One inbound voice-signalling delivery. -/
inductive VoiceMsg where
  | serverUpdate (data : String)
  | stateUpdate (sessionId : String) (channelId : Option Nat)
deriving DecidableEq, Repr

/-- Dispatch one voice-signalling delivery to the player. -/
def Player.voiceStep (p : Player) : VoiceMsg → Player × List Frame
  | .serverUpdate data => p.on_voice_server_update data
  | .stateUpdate sid ch => p.on_voice_state_update sid ch

/-- A state update whose target channel is null tears the binding down. -/
def VoiceMsg.isTeardown : VoiceMsg → Bool
  | .stateUpdate _ none => true
  | _ => false

/-- `Player.stop`: build the stop frame, clear the local track, send, then
format the debug log line `tempTrack.title`; when no track was set that
attribute access raises `AttributeError` after the send. Returns the new
state, the frames sent, and the error if one was raised. -/
def Player.stop (p : Player) : Player × List Frame × Option PyError :=
  let frames := [Frame.stop p.guildId]
  let p' := { p with track := none }
  match p.track with
  | none => (p', frames, some (.attributeError "title"))
  | some _ => (p', frames, none)

/-- `Player._togglePause`: the local name `pause` is rebound to the payload
dict, so `self._paused = pause` stores that dict, not the bool argument;
the assignment happens before the send. -/
def Player.togglePause (p : Player) (pause : Bool) : Player × List Frame :=
  ({ p with paused := .pausePayload p.guildId pause },
   [Frame.pause p.guildId pause])

/-- `Player.pause`: toggle to paused. -/
def Player.pauseCmd (p : Player) : Player × List Frame := p.togglePause true

/-- `Player.resume`: toggle to unpaused. -/
def Player.resume (p : Player) : Player × List Frame := p.togglePause false

/-- `Player.seek`: raise `InvalidIdentifier` when the position exceeds the
current track's length, before any send; otherwise send one seek frame. -/
def Player.seek (p : Player) (position : ℚ) : Except PyError (List Frame) :=
  match p.track with
  | none => .error (.attributeError "length")
  | some t =>
    if position > t.length then
      .error (.invalidIdentifier "Seek position is bigger than track length.")
    else
      .ok [Frame.seek p.guildId position]

/-- `Player._updateFilters`: send the entire current filter set together
with the volume divided by 100. -/
def Player.updateFilters (p : Player) : List Frame :=
  [Frame.filters p.guildId ((p.volume : ℚ) / 100) p.filters]

/-- `Player.addFilter`: raise `FilterAlreadyExists` when the name is already
a key of the filter map (before any mutation or send); otherwise insert and
re-send the full filter set. Returns state, frames sent, raised error. -/
def Player.addFilter (p : Player) (f : LavapyFilter) :
    Player × List Frame × Option PyError :=
  if f.name ∈ p.filters.map Prod.fst then
    (p, [], some (.filterAlreadyExists f.name))
  else
    let p' := { p with filters := p.filters ++ [(f.name, f.payload)] }
    (p', p'.updateFilters, none)

end Lavapy

namespace Lavapy.Node

/-- One entry of the `tracks` array of a loadtracks response: the opaque
track id and the info blob. -/
structure RawTrack where
  track : String
  info : String
deriving DecidableEq, Repr

/-- The JSON body of a loadtracks response. -/
structure LoadData where
  loadType : Option String
  tracks : List RawTrack
  playlistName : String
deriving DecidableEq, Repr

/-- The resource `Node.getTracks` builds: a single track, an ordered track
list, or a named playlist built from the ordered track list. -/
inductive Resource where
  | track (id : String) (info : String)
  | trackList (ts : List (String × String))
  | playlist (name : String) (ts : List (String × String))
deriving DecidableEq, Repr

/-- `Node.getTracks`: raise `LavalinkException` on a non-200 transport
status; then branch on `loadType` exactly as the Python if/elif chain does,
falling off the end (returning `none`) for any unknown tag. -/
def getTracks (status : Nat) (data : LoadData) :
    Except PyError (Option Resource) :=
  if status ≠ 200 then .error (.lavalinkException "Invalid response from lavalink.")
  else if data.loadType = some "LOAD_FAILED" then
    .error (.loadTrackError "Track failed to load.")
  else if data.loadType = some "NO_MATCHES" then .ok none
  else if data.loadType = some "TRACK_LOADED" then
    match data.tracks with
    | [] => .error .indexError
    | t :: _ => .ok (some (.track t.track t.info))
  else if data.loadType = some "SEARCH_RESULT" then
    .ok (some (.trackList (data.tracks.map fun t => (t.track, t.info))))
  else if data.loadType = some "PLAYLIST_LOADED" then
    .ok (some (.playlist data.playlistName
      (data.tracks.map fun t => (t.track, t.info))))
  else .ok none

/-- The body of `Node.disconnect`'s fan-out, `for player in self.players:
await player.disconnect()`. The Python list iterator advances by index while
each successful `player.disconnect` executes `self.node.players.remove(self)`
on the same list, and a failing disconnect propagates its exception out of
the loop. `fuel` bounds the iteration count (the true loop always stops
within `players.length` steps because the index grows each round while the
list never grows). Returns (remaining attached players, players whose
disconnect ran to completion, the propagated exception if any). -/
def disconnectLoop (fuel : Nat) (players : List String)
    (fails : String → Bool) (i : Nat) (done : List String) :
    List String × List String × Option String :=
  match fuel with
  | 0 => (players, done, none)
  | fuel + 1 =>
    if h : i < players.length then
      let p := players.get ⟨i, h⟩
      if fails p then (players, done, some p)
      else disconnectLoop fuel (players.erase p) fails (i + 1) (done ++ [p])
    else (players, done, none)

/-- `Node.disconnect` restricted to its player fan-out: iterate the live
attached-player list, each successful iteration removing that player from
the list being iterated. `fails p = true` means player `p`'s disconnect
raises (before it removes itself). -/
def disconnect (players : List String) (fails : String → Bool) :
    List String × List String × Option String :=
  disconnectLoop (players.length + 1) players fails 0 []

end Lavapy.Node

namespace Lavapy

/-- A concrete connected player with no track, no snapshot, not paused. -/
def examplePlayer : Player :=
  { guildId := "g1", channel := 10, track := none, volume := 100,
    filters := [], voiceSessionId := none, voiceEvent := none,
    connected := true, paused := .ofBool false,
    lastUpdateTime := none, lastPosition := none }

/-- A 60-second example track. -/
def track60 : Track := { id := "id60", title := "sixty", length := 60 }

/-- A 12-second example track. -/
def track12 : Track := { id := "id12", title := "twelve", length := 12 }

/-- C1: after `resume()` (the toggle with `pause = False`), `isPaused` holds
the pause-payload dict rather than `False`: it is truthy, so the locally
observable `isPaused` is not false immediately after `resume()`, contrary to
the claim. The flag-assignment-before-send part holds, but the value stored
is the payload dict because `_togglePause` rebinds its `pause` parameter. -/
theorem resume_leaves_isPaused_truthy :
    (examplePlayer.resume.1.isPaused).truthy = true ∧
    examplePlayer.resume.1.isPaused ≠ PausedVal.ofBool false ∧
    examplePlayer.resume.2 = [Frame.pause "g1" false] := by
  refine ⟨rfl, ?_, rfl⟩
  simp [examplePlayer, Player.resume, Player.togglePause, Player.isPaused]

/-- C2: the fan-out in `Node.disconnect` iterates `self.players` while each
player's `disconnect` removes itself from that same list, so with two
attached players (none failing) only the first is disconnected and the
second stays attached; and when the first player's disconnect raises, the
exception propagates and no player is detached at all. -/
theorem node_disconnect_fanout_bug :
    Node.disconnect ["p1", "p2"] (fun _ => false) = (["p2"], ["p1"], none) ∧
    Node.disconnect ["p1", "p2"] (fun s => s == "p1") =
      (["p1", "p2"], [], some "p1") := by
  constructor <;> rfl

/-- C3: `stop()` on a player with no current track does clear the track and
does send the stop frame, but then raises `AttributeError` when the debug
log line evaluates `tempTrack.title` on `None`, so the call does not
complete without error. -/
theorem stop_without_track_raises :
    examplePlayer.stop.2.1 = [Frame.stop "g1"] ∧
    examplePlayer.stop.1.track = none ∧
    examplePlayer.stop.2.2 = some (PyError.attributeError "title") := by
  exact ⟨rfl, rfl, rfl⟩

/-- C5: with a current track set, `seek(position)` raises the
invalid-position error (`InvalidIdentifier`) before any send when the
position exceeds the track's length — the error branch emits no frame —
and otherwise sends exactly one seek frame carrying that position. -/
theorem seek_spec (p : Player) (t : Track) (pos : ℚ)
    (htrack : p.track = some t) :
    (t.length < pos →
      p.seek pos = .error (.invalidIdentifier
        "Seek position is bigger than track length.")) ∧
    (pos ≤ t.length → p.seek pos = .ok [Frame.seek p.guildId pos]) := by
  constructor <;> intro hcmp <;> simp [Player.seek, htrack]
  · exact hcmp
  · exact hcmp

/-- Witness for C5 at concrete inputs: seeking to 70 on a 60-second track
errors; seeking to 30 sends one frame with position 30. -/
theorem seek_spec_witness :
    ({ examplePlayer with track := some track60 } : Player).seek 70 =
      .error (.invalidIdentifier "Seek position is bigger than track length.") ∧
    ({ examplePlayer with track := some track60 } : Player).seek 30 =
      .ok [Frame.seek "g1" 30] := by
  refine ⟨(seek_spec _ track60 70 rfl).1 (by norm_num [track60]),
          (seek_spec _ track60 30 rfl).2 (by norm_num [track60])⟩

end Lavapy

namespace Lavapy

/-- C4: per voice-signalling delivery, a state update with a null channel
clears both handshake slots and emits no frame; any other delivery emits no
frame while a slot is still empty afterwards, and exactly one voiceUpdate
frame carrying the completed (sessionId, event) pair when both slots are
filled afterwards. -/
theorem voice_handshake_spec (p : Player) (m : VoiceMsg) :
    (m.isTeardown = true →
      (p.voiceStep m).2 = [] ∧ (p.voiceStep m).1.voiceSessionId = none ∧
        (p.voiceStep m).1.voiceEvent = none) ∧
    (m.isTeardown = false →
      ((p.voiceStep m).1.voiceSessionId = none ∨
          (p.voiceStep m).1.voiceEvent = none → (p.voiceStep m).2 = []) ∧
      (∀ sid ev, (p.voiceStep m).1.voiceSessionId = some sid →
        (p.voiceStep m).1.voiceEvent = some ev →
        (p.voiceStep m).2 =
          [Frame.voiceUpdate (p.voiceStep m).1.guildId sid ev])) := by
  cases m with
  | serverUpdate data =>
    cases hs : p.voiceSessionId <;>
      simp [VoiceMsg.isTeardown, Player.voiceStep, Player.on_voice_server_update,
        Player.sendVoiceUpdate, hs]
  | stateUpdate sid ch =>
    cases ch with
    | none =>
      simp [VoiceMsg.isTeardown, Player.voiceStep, Player.on_voice_state_update]
    | some cid =>
      cases he : p.voiceEvent <;>
        simp [VoiceMsg.isTeardown, Player.voiceStep, Player.on_voice_state_update,
          Player.sendVoiceUpdate, he]

/-- A player whose buffer already holds a session id but no event. -/
def sessionOnlyPlayer : Player :=
  { examplePlayer with voiceSessionId := some "s1" }

/-- Witness for C4: a lone server update emits nothing; a server update on a
buffer already holding the session id emits exactly one frame with the pair;
a null-channel state update emits nothing. -/
theorem voice_handshake_spec_witness :
    (examplePlayer.voiceStep (.serverUpdate "ev")).2 = [] ∧
    (sessionOnlyPlayer.voiceStep (.serverUpdate "ev")).2 =
      [Frame.voiceUpdate "g1" "s1" "ev"] ∧
    (examplePlayer.voiceStep (.stateUpdate "s1" none)).2 = [] := by
  refine ⟨((voice_handshake_spec examplePlayer (.serverUpdate "ev")).2 rfl).1
      (Or.inl rfl),
    ((voice_handshake_spec sessionOnlyPlayer (.serverUpdate "ev")).2 rfl).2
      "s1" "ev" rfl rfl,
    ((voice_handshake_spec examplePlayer (.stateUpdate "s1" none)).1 rfl).1⟩

/-- C6: `addFilter` with an already-applied filter name raises
`FilterAlreadyExists`, leaves the filter map unchanged, and sends nothing;
with a fresh name it appends the filter to the map and sends one frame
carrying the entire resulting filter set and the volume divided by 100. -/
theorem addFilter_spec (p : Player) (f : LavapyFilter) :
    (f.name ∈ p.filters.map Prod.fst →
      p.addFilter f = (p, [], some (.filterAlreadyExists f.name))) ∧
    (f.name ∉ p.filters.map Prod.fst →
      p.addFilter f =
        ({ p with filters := p.filters ++ [(f.name, f.payload)] },
         [Frame.filters p.guildId ((p.volume : ℚ) / 100)
           (p.filters ++ [(f.name, f.payload)])],
         none)) := by
  constructor <;> intro h
  · unfold Player.addFilter
    rw [if_pos h]
  · unfold Player.addFilter
    rw [if_neg h]
    rfl

/-- An example filter. -/
def eqFilter : LavapyFilter := { name := "equalizer", payload := "bands" }

/-- Witness for C6: adding a filter to an empty map sends the full set with
volume 100/100 = 1; adding the same name again fails and changes nothing. -/
theorem addFilter_spec_witness :
    examplePlayer.addFilter eqFilter =
      ({ examplePlayer with filters := [("equalizer", "bands")] },
       [Frame.filters "g1" 1 [("equalizer", "bands")]], none) ∧
    ({ examplePlayer with filters := [("equalizer", "bands")] } : Player).addFilter
        eqFilter =
      ({ examplePlayer with filters := [("equalizer", "bands")] }, [],
       some (.filterAlreadyExists "equalizer")) := by
  constructor
  · rw [(addFilter_spec examplePlayer eqFilter).2 (by decide)]
    norm_num [examplePlayer, eqFilter]
  · exact (addFilter_spec _ eqFilter).1 (by decide)

/-- The spec's example snapshot: server time 1000000 ms, position 10000 ms,
i.e. pos0 = 10 s at t0 = 1000 s. -/
def snapshotRaw : RawState := { time := 1000000, position := some 10000 }

/-- A playing player holding the 60-second track. -/
def playing60 : Player := { examplePlayer with track := some track60 }

/-- A playing player holding the 12-second track. -/
def playing12 : Player := { examplePlayer with track := some track12 }

/-- A paused player holding the 60-second track. -/
def pausedPlaying60 : Player := { playing60 with paused := .ofBool true }

/-- C7: the claimed extrapolated read `min(pos0 + elapsed, track.length)` is
false in the program: because the module name `datetime` is shadowed by the
class, the playing-and-unpaused branch of `position` raises `AttributeError`
at `datetime.datetime.now` on every read. At the spec's own example — a
snapshot reporting pos0 = 10 s on the 60-second track — the read errors
instead of returning about 15 s. -/
theorem position_extrapolation_bug :
    (playing60.updateState snapshotRaw).position =
      .error (.attributeError "datetime") ∧
    (playing60.updateState snapshotRaw).position ≠ .ok 15 := by
  refine ⟨rfl, fun h => ?_⟩
  rw [show (playing60.updateState snapshotRaw).position =
      .error (.attributeError "datetime") from rfl] at h
  exact Except.noConfusion h

/-- Counterexample to C9 as stated: this playing, unpaused player has
received a snapshot — both stored snapshot fields are populated — yet the
position read still fails, so the failing branch is not unreachable under
the precondition that at least one snapshot has been received. -/
theorem position_snapshot_not_total_cex :
    (playing12.updateState snapshotRaw).lastPosition.isSome = true ∧
    (playing12.updateState snapshotRaw).lastUpdateTime.isSome = true ∧
    (playing12.updateState snapshotRaw).isPlaying = true ∧
    (playing12.updateState snapshotRaw).position =
      .error (.attributeError "datetime") := ⟨rfl, rfl, rfl, rfl⟩

/-- C9 (amended): a position read returns 0 when the player is not playing;
a paused playing player whose snapshot position is still at its initial
`None` fails with `TypeError`; an unpaused playing player fails with
`AttributeError` on every read, snapshot or no snapshot, because the
shadowed `datetime` name breaks the clock access; only the paused read with
a populated snapshot returns a number, `min(lastPosition, track.length)`. -/
theorem position_totality_amended (p : Player) :
    (p.isPlaying = false → p.position = .ok 0) ∧
    (p.isPlaying = true → p.paused.truthy = true → p.lastPosition = none →
      p.position = .error .typeError) ∧
    (p.isPlaying = true → p.paused.truthy = false →
      p.position = .error (.attributeError "datetime")) ∧
    (∀ t lp, p.connected = true → p.track = some t → p.paused.truthy = true →
      p.lastPosition = some lp → p.position = .ok (min lp t.length)) := by
  refine ⟨fun h => by simp [Player.position, h], ?_, ?_, ?_⟩
  · intro hplay hpb hlp
    cases htr : p.track with
    | none => simp [Player.isPlaying, Player.isConnected, htr] at hplay
    | some t => simp [Player.position, hplay, htr, hpb, hlp]
  · intro hplay hpb
    cases htr : p.track with
    | none => simp [Player.isPlaying, Player.isConnected, htr] at hplay
    | some t => simp [Player.position, hplay, htr, hpb]
  · intro t lp hconn htr hpb hlp
    simp [Player.position, Player.isPlaying, Player.isConnected, hconn, htr,
      hpb, hlp]

/-- Witness for the amended C9: a disconnected player reads 0; a paused
playing player with no snapshot fails with `TypeError`; an unpaused playing
player fails with `AttributeError`; a paused playing player with a snapshot
at 10 s reads 10. -/
theorem position_totality_amended_witness :
    ({ examplePlayer with connected := false } : Player).position = .ok 0 ∧
    pausedPlaying60.position = .error .typeError ∧
    playing60.position = .error (.attributeError "datetime") ∧
    (pausedPlaying60.updateState snapshotRaw).position = .ok 10 := by
  refine ⟨(position_totality_amended
      { examplePlayer with connected := false }).1 rfl,
    (position_totality_amended pausedPlaying60).2.1 rfl rfl rfl,
    (position_totality_amended playing60).2.2.1 rfl rfl, ?_⟩
  rw [(position_totality_amended
      (pausedPlaying60.updateState snapshotRaw)).2.2.2
    track60 (10000 / 1000) rfl rfl rfl rfl]
  norm_num [track60, min_def]

end Lavapy

namespace Lavapy.Node

/-- C8: on a transport-successful (status 200) loadtracks response,
`getTracks` returns the empty result for NO_MATCHES, raises the load error
for LOAD_FAILED, returns a single track for TRACK_LOADED, returns the track
sequence in the server's order for SEARCH_RESULT, and returns a named
collection built from the ordered track list for PLAYLIST_LOADED; a non-200
transport status raises `LavalinkException`, distinct from the content-level
outcomes. -/
theorem getTracks_spec (status : Nat) (data : LoadData) :
    (status ≠ 200 →
      getTracks status data =
        .error (.lavalinkException "Invalid response from lavalink.")) ∧
    (getTracks 200 { data with loadType := some "NO_MATCHES" } = .ok none) ∧
    (getTracks 200 { data with loadType := some "LOAD_FAILED" } =
      .error (.loadTrackError "Track failed to load.")) ∧
    (∀ t rest, data.tracks = t :: rest →
      getTracks 200 { data with loadType := some "TRACK_LOADED" } =
        .ok (some (.track t.track t.info))) ∧
    (getTracks 200 { data with loadType := some "SEARCH_RESULT" } =
      .ok (some (.trackList (data.tracks.map fun t => (t.track, t.info))))) ∧
    (getTracks 200 { data with loadType := some "PLAYLIST_LOADED" } =
      .ok (some (.playlist data.playlistName
        (data.tracks.map fun t => (t.track, t.info))))) := by
  refine ⟨fun h => by simp [getTracks, h], by simp [getTracks],
    by simp [getTracks], ?_, by simp [getTracks], by simp [getTracks]⟩
  intro t rest htr
  simp [getTracks, htr]

/-- An example raw track and loadtracks body. -/
def sampleTrack : RawTrack := { track := "b64id", info := "info1" }

/-- An example loadtracks response body with one track. -/
def sampleData : LoadData :=
  { loadType := none, tracks := [sampleTrack], playlistName := "mix" }

/-- Witness for C8: a 404 raises the protocol error; TRACK_LOADED on a
one-track body returns that single track. -/
theorem getTracks_spec_witness :
    getTracks 404 sampleData =
      .error (.lavalinkException "Invalid response from lavalink.") ∧
    getTracks 200 { sampleData with loadType := some "TRACK_LOADED" } =
      .ok (some (.track "b64id" "info1")) := by
  exact ⟨(getTracks_spec 404 sampleData).1 (by decide),
    (getTracks_spec 200 sampleData).2.2.2.1 sampleTrack [] rfl⟩

/-- C10: a transport-successful response whose loadType is none of the five
known tags falls off the end of the if/elif chain and returns `none`, the
very same value NO_MATCHES returns, so the two are indistinguishable to the
caller. -/
theorem getTracks_unknown_loadType (data : LoadData) (tag : String)
    (h1 : tag ≠ "LOAD_FAILED") (h2 : tag ≠ "NO_MATCHES")
    (h3 : tag ≠ "TRACK_LOADED") (h4 : tag ≠ "SEARCH_RESULT")
    (h5 : tag ≠ "PLAYLIST_LOADED") :
    getTracks 200 { data with loadType := some tag } = .ok none ∧
    getTracks 200 { data with loadType := some "NO_MATCHES" } = .ok none := by
  constructor <;> simp [getTracks, h1, h2, h3, h4, h5]

/-- Witness for C10: the unknown tag "V2_LOADED" yields the same `.ok none`
as NO_MATCHES. -/
theorem getTracks_unknown_loadType_witness :
    getTracks 200 { sampleData with loadType := some "V2_LOADED" } =
      .ok none ∧
    getTracks 200 { sampleData with loadType := some "NO_MATCHES" } =
      .ok none :=
  getTracks_unknown_loadType sampleData "V2_LOADED" (by decide) (by decide)
    (by decide) (by decide) (by decide)

end Lavapy.Node
